import Mathlib

/-!
Verification development for the transaction admission validator of a layer-2
rollup and its `submit_tx` RPC test harness
(`core/loadtest/src/scenarios/api_test/submit_tx.rs`).

The harness exercises the server-side admission validator as a black box; the
validator itself is not part of the visible sources, so it is modelled here
from the specification (pipeline of codec, identity, fee and dual-signature
checks with stable error classifications). The harness functions themselves
(`check_rpc_code`, the six test cases, `sign_transfer`, `run`) are embedded
from the source file directly, with the RPC reply supplied as a parameter in
place of the network call.
-/

/-- Stable error classifications surfaced by the admission validator, as named
by `server::api_server::rpc_server::RpcErrorCodes` in the harness imports and
by the spec's error taxonomy (section 7). Only the four codes the harness
exercises are modelled. -/
inductive RpcErrorCodes where
  | MissingEthSignature
  | IncorrectEthSignature
  | FeeTooLow
  | IncorrectTx
  deriving DecidableEq, Repr

/-- Modelled from the spec: the mapping from internal classification to a
stable numeric code in the transport error envelope is part of the contract,
but the server module defining the numbers is not among the sources; distinct
integers stand for the four codes. -/
def RpcErrorCodes.toCode : RpcErrorCodes → Int
  | .MissingEthSignature => 200
  | .IncorrectEthSignature => 202
  | .FeeTooLow => 105
  | .IncorrectTx => 103

/-- Verdict of the admission validator: `Admitted | Rejected(code)`
(spec section 6). -/
inductive Verdict where
  | admitted
  | rejected (code : RpcErrorCodes)
  deriving DecidableEq, Repr

/-- Modelled from the spec: a value packs with exponent `e` when it equals
`mantissa * 10 ^ e` for a mantissa below `2 ^ mBits` (fixed-precision
mantissa+exponent packed format, spec section 4.1). -/
def packsWithExponent (mBits v e : Nat) : Bool :=
  decide (v % 10 ^ e = 0 ∧ v / 10 ^ e < 2 ^ mBits)

/-- Modelled from the spec: a value is packable when some exponent below
`2 ^ eBits` packs it (spec section 4.1; the packing code itself is not among
the sources). -/
def isPackable (mBits eBits v : Nat) : Bool :=
  (List.range (2 ^ eBits)).any (packsWithExponent mBits v)

/-- Modelled from the spec: packability of a token amount. The mantissa and
exponent bit-widths (35 and 5) are chosen to realise the tested boundary:
`10 ^ 18 + 1` must not pack while `10` and small round values must. -/
def is_token_amount_packable (v : Nat) : Bool :=
  isPackable 35 5 v

/-- Modelled from the spec: packability of a fee amount, with a narrower
mantissa (11 bits) and the same 5-bit exponent; again `10 ^ 18 + 1` must not
pack while `10` must. -/
def is_fee_amount_packable (v : Nat) : Bool :=
  isPackable 11 5 v

/-- Symbolic model of the application-layer (MuSig) signature scheme: a
signature records the signing key and the signed bytes, and verification
checks both against the expected signer. The cryptographic library is not
among the sources; the harness only needs that signing with the right key
over the right bytes verifies and anything else does not. -/
inductive TxSignature where
  | empty
  | musig (key : Nat) (message : List Nat)
  deriving DecidableEq, Repr

/-- Embedding of `TxSignature::sign_musig`: deterministic signature over the
given bytes with the given key (symbolic model). -/
def TxSignature.sign_musig (key : Nat) (message : List Nat) : TxSignature :=
  .musig key message

/-- Symbolic MuSig verification: the signature must carry the expected signer
key and exactly the canonical bytes being verified. -/
def TxSignature.verify_musig : TxSignature → List Nat → Nat → Bool
  | .empty, _, _ => false
  | .musig k m, message, signer => k == signer && decide (m = message)

/-- Human-readable message template for the authentication-layer signature:
a token symbol plus the request's fields (spec section 4.4). -/
structure EthMessage where
  token_symbol : String
  fields : List Nat
  deriving DecidableEq, Repr

/-- Symbolic model of a packed authentication-layer (Ethereum) signature:
records the signing key and signed message. A wrong-but-well-formed signature
is any value of this type that fails verification. -/
structure PackedEthSignature where
  signer : Nat
  message : EthMessage
  deriving DecidableEq, Repr

/-- Embedding of `PackedEthSignature::sign` (symbolic model). -/
def PackedEthSignature.sign (key : Nat) (message : EthMessage) : PackedEthSignature :=
  ⟨key, message⟩

/-- Symbolic authentication-layer verification against an expected signer. -/
def PackedEthSignature.verify (sig : PackedEthSignature) (message : EthMessage)
    (signer : Nat) : Bool :=
  sig.signer == signer && decide (sig.message = message)

/-- Modelled from the spec: the Transfer Request data model (spec section 3).
Addresses are abstracted to naturals; `amount` and `fee` are
arbitrary-precision naturals. -/
structure TransferRequest where
  account_id : Nat
  fromAddr : Nat
  toAddr : Nat
  token : Nat
  amount : Nat
  fee : Nat
  nonce : Nat
  time_bound : Option Nat
  deriving DecidableEq, Repr

/-- Modelled from the spec: read-only network-condition snapshot supplying the
current minimum fee, and the account directory folded into a range bound
(spec sections 5 and 6). -/
structure NetworkSnapshot where
  min_fee : Nat
  account_count : Nat
  deriving DecidableEq, Repr

/-- The unassigned-account sentinel `u32::max_value()`. -/
def U32_MAX : Nat := 2 ^ 32 - 1

/-- Modelled from the spec: numeric codec check — both the amount and the fee
must be exactly representable in the packed format (spec section 4.1). -/
def codec_check (r : TransferRequest) : Bool :=
  is_token_amount_packable r.amount && is_fee_amount_packable r.fee

/-- Modelled from the spec: identity bounds check — the sender account id must
not be the unassigned sentinel and must fall in the allocated range
(spec section 4.2). -/
def identity_check (snap : NetworkSnapshot) (account_id : Nat) : Bool :=
  (account_id != U32_MAX) && decide (account_id < snap.account_count)

/-- Modelled from the spec: fee policy check — the declared fee must be at
least the snapshot's computed minimum (spec section 4.3). -/
def fee_check (snap : NetworkSnapshot) (fee : Nat) : Bool :=
  decide (snap.min_fee ≤ fee)

/-- Modelled from the spec: the fixed textual message, populated with the
request's human-readable fields, that the authentication-layer signature
signs (spec section 4.4). -/
def request_sign_message (r : TransferRequest) : EthMessage :=
  { token_symbol := "ETH"
    fields := [r.amount, r.token, r.fee, r.toAddr, r.nonce, r.account_id] }

/-- Modelled from the spec: canonical byte serialization of the request,
excluding the signature field (spec section 4.4). -/
def request_bytes (r : TransferRequest) : List Nat :=
  [r.account_id, r.fromAddr, r.toAddr, r.token, r.amount, r.fee, r.nonce]

/-- Modelled from the spec: dual signature verifier (spec section 4.4).
Absence of the authentication-layer signature short-circuits with
`MissingEthSignature`; a present but failing one yields
`IncorrectEthSignature`; an absent or failing application-layer signature
falls into the `IncorrectTx` catch-all. -/
def signature_check (r : TransferRequest) (app_sig : Option TxSignature)
    (eth_sig : Option PackedEthSignature) : Verdict :=
  match eth_sig with
  | none => .rejected .MissingEthSignature
  | some es =>
    if PackedEthSignature.verify es (request_sign_message r) r.fromAddr = false then
      .rejected .IncorrectEthSignature
    else
      match app_sig with
      | none => .rejected .IncorrectTx
      | some s =>
        if TxSignature.verify_musig s (request_bytes r) r.fromAddr = false then
          .rejected .IncorrectTx
        else
          .admitted

/-- Modelled from the spec: the admission validator pipeline
`Received → CodecChecked → IdentityChecked → FeeChecked → SignaturesChecked`
with early termination on the first failing check (spec sections 2 and 4.4);
the validator itself is not among the sources. -/
def validate (snap : NetworkSnapshot) (r : TransferRequest)
    (app_sig : Option TxSignature) (eth_sig : Option PackedEthSignature) : Verdict :=
  if codec_check r = false then .rejected .IncorrectTx
  else if identity_check snap r.account_id = false then .rejected .IncorrectTx
  else if fee_check snap r.fee = false then .rejected .FeeTooLow
  else signature_check r app_sig eth_sig

/-- Modelled from the spec: the transport hands each submission to the
validator together with a submission order index and a wall-clock timestamp,
but the validator is a pure stateless function of the request and the
snapshot alone (spec section 5). -/
def validate_submission (_order_index _wall_clock : Nat) (snap : NetworkSnapshot)
    (r : TransferRequest) (app_sig : Option TxSignature)
    (eth_sig : Option PackedEthSignature) : Verdict :=
  validate snap r app_sig eth_sig

/-- Validating the same immutable request twice (spec section 8,
idempotence). -/
def validate_twice (snap : NetworkSnapshot) (r : TransferRequest)
    (app_sig : Option TxSignature) (eth_sig : Option PackedEthSignature) :
    Verdict × Verdict :=
  (validate snap r app_sig eth_sig, validate snap r app_sig eth_sig)

/-- Embedding of the harness `Transfer` transaction (fields per
`Transfer::new` in `sign_transfer`, plus the signature field assigned
afterwards). Addresses are abstracted to naturals. -/
structure Transfer where
  account_id : Nat
  fromAddr : Nat
  toAddr : Nat
  token : Nat
  amount : Nat
  fee : Nat
  nonce : Nat
  time_bound : Option Nat
  signature : TxSignature
  deriving DecidableEq, Repr

/-- Embedding of `Transfer::new`: constructs the transaction with an empty
signature field, to be assigned afterwards. -/
def Transfer.new (account_id fromAddr toAddr token amount fee nonce : Nat)
    (time_bound : Option Nat) : Transfer :=
  { account_id := account_id, fromAddr := fromAddr, toAddr := toAddr
    token := token, amount := amount, fee := fee, nonce := nonce
    time_bound := time_bound, signature := TxSignature.empty }

/-- Canonical byte serialization of a `Transfer`, excluding the signature
field (`Transfer::get_bytes`; the serializer lives outside the sources and is
modelled as the list of fields). -/
def Transfer.get_bytes (t : Transfer) : List Nat :=
  [t.account_id, t.fromAddr, t.toAddr, t.token, t.amount, t.fee, t.nonce]

/-- Human-readable signing message of a `Transfer`
(`Transfer::get_ethereum_sign_message`, modelled as the token symbol plus the
transaction's fields). -/
def Transfer.get_ethereum_sign_message (t : Transfer) (token_symbol : String) :
    EthMessage :=
  { token_symbol := token_symbol
    fields := [t.amount, t.token, t.fee, t.toAddr, t.nonce, t.account_id] }

/-- Embedding of `FranklinTx` from `models::node`: the top-level transaction
enum; the harness only constructs the `Transfer` variant. -/
inductive FranklinTx where
  | Transfer (t : Transfer)
  | Withdraw (data : List Nat)
  | Close (data : List Nat)
  | ChangePubKey (data : List Nat)
  deriving DecidableEq, Repr

/-- Embedding of the `ZksyncAccount` fields the harness reads: address, both
private keys, the optional account id and the current nonce. -/
structure ZksyncAccount where
  address : Nat
  private_key : Nat
  eth_private_key : Nat
  account_id : Option Nat
  nonce : Nat
  deriving DecidableEq, Repr

/-- Embedding of the harness helper `SubmitTxTester::sign_transfer`
(source lines 222-250): builds a token-0 transfer, signs it with MuSig over
its canonical bytes, signs the Ethereum message with the ETH key, and returns
the pair. The Rust `expect` on an unset account id (a panic) is modelled as
`none`. -/
def sign_transfer (from_acc : ZksyncAccount) (toAddr amount fee : Nat) :
    Option (FranklinTx × Option PackedEthSignature) :=
  match from_acc.account_id with
  | none => none
  | some account_id =>
    let token : Nat := 0
    let tx0 := Transfer.new account_id from_acc.address toAddr token amount fee
      from_acc.nonce none
    let tx := { tx0 with
      signature := TxSignature.sign_musig from_acc.private_key tx0.get_bytes }
    let eth_signature := PackedEthSignature.sign from_acc.eth_private_key
      (tx.get_ethereum_sign_message "ETH")
    some (FranklinTx.Transfer tx, some eth_signature)

/-- Error payload of an RPC `Output::Failure` reply; only the numeric code is
inspected by the harness. -/
structure RpcFailure where
  code : Int
  deriving DecidableEq, Repr

/-- Embedding of `jsonrpc_core::types::Output`: a reply is either a success
value or a failure payload. -/
inductive RpcOutput where
  | Success (value : Nat)
  | Failure (f : RpcFailure)
  deriving DecidableEq, Repr

/-- Outcome of one harness test body: it either runs to its final `Ok(())` or
panics (both the explicit panic on a success reply and the panic inside
`check_rpc_code`). -/
inductive TestOutcome where
  | ok
  | panicked
  deriving DecidableEq, Repr

/-- Embedding of `SubmitTxTester::check_rpc_code` (source lines 38-45): panics
exactly when the failure's code differs from the expected code. -/
def check_rpc_code (output : RpcFailure) (expected : RpcErrorCodes) : TestOutcome :=
  if output.code ≠ expected.toCode then .panicked else .ok

/-- Embedding of the assertion logic of `SubmitTxTester::no_eth_signature`
(source lines 47-73), with the server reply as a parameter: a success reply
panics, a failure reply is checked against `MissingEthSignature`. -/
def no_eth_signature (reply : RpcOutput) : TestOutcome :=
  match reply with
  | .Success _ => .panicked
  | .Failure v => check_rpc_code v .MissingEthSignature

/-- Embedding of the assertion logic of
`SubmitTxTester::incorrect_eth_signature` (source lines 75-106): a success
reply panics, a failure reply is checked against `IncorrectEthSignature`. -/
def incorrect_eth_signature (reply : RpcOutput) : TestOutcome :=
  match reply with
  | .Success _ => .panicked
  | .Failure v => check_rpc_code v .IncorrectEthSignature

/-- Embedding of the assertion logic of `SubmitTxTester::low_fee`
(source lines 108-132): a success reply panics, a failure reply is checked
against `FeeTooLow`. -/
def low_fee (reply : RpcOutput) : TestOutcome :=
  match reply with
  | .Success _ => .panicked
  | .Failure v => check_rpc_code v .FeeTooLow

/-- Embedding of the assertion logic of `SubmitTxTester::incorrect_account_id`
(source lines 134-163): a success reply panics, a failure reply is checked
against `IncorrectTx`. -/
def incorrect_account_id (reply : RpcOutput) : TestOutcome :=
  match reply with
  | .Success _ => .panicked
  | .Failure v => check_rpc_code v .IncorrectTx

/-- Embedding of the assertion logic of
`SubmitTxTester::unpackable_token_amount` (source lines 165-192): a success
reply panics, a failure reply is checked against `IncorrectTx`. -/
def unpackable_token_amount (reply : RpcOutput) : TestOutcome :=
  match reply with
  | .Success _ => .panicked
  | .Failure v => check_rpc_code v .IncorrectTx

/-- Embedding of the assertion logic of
`SubmitTxTester::unpackable_fee_amount` (source lines 194-220): a success
reply panics, a failure reply is checked against `IncorrectTx`. -/
def unpackable_fee_amount (reply : RpcOutput) : TestOutcome :=
  match reply with
  | .Success _ => .panicked
  | .Failure v => check_rpc_code v .IncorrectTx

/-- Embedding of `SubmitTxTester::run` (source lines 23-36): executes the six
test cases in their fixed order under `execute_test` with the listed display
names, then returns `Ok(())`. The server's reply to each test is supplied by
an oracle keyed on the test's display name; the result records the executed
tests with their outcomes and the final return value. -/
def SubmitTxTester.run (replies : String → RpcOutput) :
    List (String × TestOutcome) × Except String Unit :=
  ([("No ethereum signature", no_eth_signature (replies "No ethereum signature")),
    ("Incorrect ethereum signature",
      incorrect_eth_signature (replies "Incorrect ethereum signature")),
    ("Too low fee", low_fee (replies "Too low fee")),
    ("Incorrect account ID", incorrect_account_id (replies "Incorrect account ID")),
    ("Unpackable token amount",
      unpackable_token_amount (replies "Unpackable token amount")),
    ("Unpackable fee amount",
      unpackable_fee_amount (replies "Unpackable fee amount"))],
   Except.ok ())

/-- C1 (amended): for every transfer request missing the authentication-layer
signature that passes the codec, identity and fee checks, the validator
returns `MissingEthSignature`, regardless of application-layer signature
presence or validity. -/
theorem C1_missing_eth_sig_after_prior_checks (snap : NetworkSnapshot)
    (r : TransferRequest) (app_sig : Option TxSignature)
    (hcodec : codec_check r = true)
    (hid : identity_check snap r.account_id = true)
    (hfee : fee_check snap r.fee = true) :
    validate snap r app_sig none = .rejected .MissingEthSignature := by
  simp [validate, hcodec, hid, hfee, signature_check]

/-- C1 witness: a transfer of 1 base unit with fee equal to the computed
minimum, a correct application signature and no authentication signature is
classified `MissingEthSignature`. -/
theorem C1_witness :
    validate ⟨1, 5⟩ ⟨0, 1, 2, 0, 1, 1, 0, none⟩
        (some (TxSignature.sign_musig 1 (request_bytes ⟨0, 1, 2, 0, 1, 1, 0, none⟩)))
        none
      = .rejected .MissingEthSignature :=
  C1_missing_eth_sig_after_prior_checks ⟨1, 5⟩ ⟨0, 1, 2, 0, 1, 1, 0, none⟩ _
    (by decide) (by decide) (by decide)

/-- C1 counterexample: a request with no authentication-layer signature but a
declared fee of 0 below the positive minimum is classified `FeeTooLow`, not
`MissingEthSignature`, so the absence of the signature does not dominate every
other field. -/
theorem C1_counterexample :
    validate ⟨1, 5⟩ ⟨0, 1, 2, 0, 1, 0, 0, none⟩
        (some (TxSignature.sign_musig 1 (request_bytes ⟨0, 1, 2, 0, 1, 0, 0, none⟩)))
        none
      = .rejected .FeeTooLow ∧
    validate ⟨1, 5⟩ ⟨0, 1, 2, 0, 1, 0, 0, none⟩
        (some (TxSignature.sign_musig 1 (request_bytes ⟨0, 1, 2, 0, 1, 0, 0, none⟩)))
        none
      ≠ .rejected .MissingEthSignature := by
  decide

/-- C2 (amended): for every transfer request carrying a present but failing
authentication-layer signature that passes the codec, identity and fee checks,
the validator returns `IncorrectEthSignature`. -/
theorem C2_incorrect_eth_sig_after_prior_checks (snap : NetworkSnapshot)
    (r : TransferRequest) (app_sig : Option TxSignature) (es : PackedEthSignature)
    (hcodec : codec_check r = true)
    (hid : identity_check snap r.account_id = true)
    (hfee : fee_check snap r.fee = true)
    (hver : PackedEthSignature.verify es (request_sign_message r) r.fromAddr = false) :
    validate snap r app_sig (some es) = .rejected .IncorrectEthSignature := by
  simp [validate, hcodec, hid, hfee, signature_check, hver]

/-- C2 witness: the same transfer with the authentication signature replaced
by an all-zero well-formed-but-wrong one is classified
`IncorrectEthSignature`. -/
theorem C2_witness :
    validate ⟨1, 5⟩ ⟨0, 1, 2, 0, 1, 1, 0, none⟩
        (some (TxSignature.sign_musig 1 (request_bytes ⟨0, 1, 2, 0, 1, 1, 0, none⟩)))
        (some ⟨0, ⟨"", []⟩⟩)
      = .rejected .IncorrectEthSignature :=
  C2_incorrect_eth_sig_after_prior_checks ⟨1, 5⟩ ⟨0, 1, 2, 0, 1, 1, 0, none⟩ _ _
    (by decide) (by decide) (by decide) (by decide)

/-- C2 counterexample: a request with a wrong authentication-layer signature
but a declared fee of 0 below the positive minimum is classified `FeeTooLow`,
not `IncorrectEthSignature`. -/
theorem C2_counterexample :
    validate ⟨1, 5⟩ ⟨0, 1, 2, 0, 1, 0, 0, none⟩
        (some (TxSignature.sign_musig 1 (request_bytes ⟨0, 1, 2, 0, 1, 0, 0, none⟩)))
        (some ⟨0, ⟨"", []⟩⟩)
      = .rejected .FeeTooLow ∧
    validate ⟨1, 5⟩ ⟨0, 1, 2, 0, 1, 0, 0, none⟩
        (some (TxSignature.sign_musig 1 (request_bytes ⟨0, 1, 2, 0, 1, 0, 0, none⟩)))
        (some ⟨0, ⟨"", []⟩⟩)
      ≠ .rejected .IncorrectEthSignature := by
  decide

/-- C3 (amended): for every transfer request with declared fee 0 that passes
the codec and identity checks, when the snapshot's computed minimum fee is
strictly positive, the validator returns `FeeTooLow`; and the fee check
accepts a zero declared fee exactly when the computed minimum is zero. -/
theorem C3_zero_fee_rejected (snap : NetworkSnapshot) (r : TransferRequest)
    (app_sig : Option TxSignature) (eth_sig : Option PackedEthSignature)
    (hfee : r.fee = 0) (hmin : 0 < snap.min_fee)
    (hcodec : codec_check r = true)
    (hid : identity_check snap r.account_id = true) :
    validate snap r app_sig eth_sig = .rejected .FeeTooLow ∧
      ∀ s : NetworkSnapshot, (fee_check s 0 = true ↔ s.min_fee = 0) := by
  constructor
  · have h : fee_check snap r.fee = false := by
      simp [fee_check, hfee]
      omega
    simp [validate, hcodec, hid, h]
  · intro s
    simp [fee_check, Nat.le_zero]

/-- C3 witness: a transfer with declared fee 0 under a snapshot with minimum
fee 1 is classified `FeeTooLow`, and the fee check on snapshot minimum 0
accepts a zero fee. -/
theorem C3_witness :
    validate ⟨1, 5⟩ ⟨0, 1, 2, 0, 1, 0, 0, none⟩ none none = .rejected .FeeTooLow ∧
    (fee_check ⟨0, 5⟩ 0 = true ↔ (⟨0, 5⟩ : NetworkSnapshot).min_fee = 0) :=
  ⟨(C3_zero_fee_rejected ⟨1, 5⟩ ⟨0, 1, 2, 0, 1, 0, 0, none⟩ none none rfl
      (by decide) (by decide) (by decide)).1,
   (C3_zero_fee_rejected ⟨1, 5⟩ ⟨0, 1, 2, 0, 1, 0, 0, none⟩ none none rfl
      (by decide) (by decide) (by decide)).2 ⟨0, 5⟩⟩

/-- C3 counterexample: a request with declared fee 0 under a positive minimum
but with the sentinel account id is classified `IncorrectTx` by the earlier
identity check, not `FeeTooLow`. -/
theorem C3_counterexample :
    validate ⟨1, 5⟩ ⟨4294967295, 1, 2, 0, 1, 0, 0, none⟩
        (some (TxSignature.sign_musig 1 (request_bytes ⟨4294967295, 1, 2, 0, 1, 0, 0, none⟩)))
        (some ⟨1, request_sign_message ⟨4294967295, 1, 2, 0, 1, 0, 0, none⟩⟩)
      = .rejected .IncorrectTx ∧
    validate ⟨1, 5⟩ ⟨4294967295, 1, 2, 0, 1, 0, 0, none⟩
        (some (TxSignature.sign_musig 1 (request_bytes ⟨4294967295, 1, 2, 0, 1, 0, 0, none⟩)))
        (some ⟨1, request_sign_message ⟨4294967295, 1, 2, 0, 1, 0, 0, none⟩⟩)
      ≠ .rejected .FeeTooLow := by
  decide

/-- C4: a transfer request whose amount or fee equals `10 ^ 18 + 1` is
classified `IncorrectTx` by the codec check, while `10` and any packable
computed minimum fee pass the codec check. -/
theorem C4_unpackable_boundary (snap : NetworkSnapshot) (r : TransferRequest)
    (app_sig : Option TxSignature) (eth_sig : Option PackedEthSignature)
    (h : r.amount = 10 ^ 18 + 1 ∨ r.fee = 10 ^ 18 + 1) :
    validate snap r app_sig eth_sig = .rejected .IncorrectTx ∧
      is_token_amount_packable 10 = true ∧
      is_fee_amount_packable 10 = true ∧
      (is_fee_amount_packable snap.min_fee = true →
        codec_check { r with amount := 10, fee := snap.min_fee } = true) := by
  refine ⟨?_, by decide, by decide, ?_⟩
  · have hA : is_token_amount_packable 1000000000000000001 = false := by decide
    have hF : is_fee_amount_packable 1000000000000000001 = false := by decide
    have hc : codec_check r = false := by
      rcases h with h | h <;> simp [codec_check, h, hA, hF]
    simp [validate, hc]
  · intro hp
    have h10 : is_token_amount_packable 10 = true := by decide
    simp [codec_check, hp, h10]

/-- C4 witness: the concrete boundary values — amount `10 ^ 18 + 1` rejected
as `IncorrectTx`, amount `10` packable. -/
theorem C4_witness :
    validate ⟨1, 5⟩ ⟨0, 1, 2, 0, 10 ^ 18 + 1, 10, 0, none⟩ none none
      = .rejected .IncorrectTx ∧
    is_token_amount_packable 10 = true :=
  ⟨(C4_unpackable_boundary ⟨1, 5⟩ ⟨0, 1, 2, 0, 10 ^ 18 + 1, 10, 0, none⟩ none none
      (Or.inl rfl)).1,
   (C4_unpackable_boundary ⟨1, 5⟩ ⟨0, 1, 2, 0, 10 ^ 18 + 1, 10, 0, none⟩ none none
      (Or.inl rfl)).2.1⟩

/-- C5: a transfer request whose sender account id is the unassigned sentinel
`u32::max_value()` is classified `IncorrectTx` for every snapshot and any
combination of signatures. -/
theorem C5_sentinel_account_id (snap : NetworkSnapshot) (r : TransferRequest)
    (app_sig : Option TxSignature) (eth_sig : Option PackedEthSignature)
    (h : r.account_id = U32_MAX) :
    validate snap r app_sig eth_sig = .rejected .IncorrectTx := by
  have hid : identity_check snap r.account_id = false := by
    simp [identity_check, h]
  cases hc : codec_check r with
  | false => simp [validate, hc]
  | true => simp [validate, hc, hid]

/-- C5 witness: a concrete request with account id `2 ^ 32 - 1` and both
signatures present is classified `IncorrectTx`. -/
theorem C5_witness :
    validate ⟨1, 5⟩ ⟨U32_MAX, 1, 2, 0, 1, 1, 0, none⟩
        (some (TxSignature.sign_musig 1 (request_bytes ⟨U32_MAX, 1, 2, 0, 1, 1, 0, none⟩)))
        (some ⟨1, request_sign_message ⟨U32_MAX, 1, 2, 0, 1, 1, 0, none⟩⟩)
      = .rejected .IncorrectTx :=
  C5_sentinel_account_id ⟨1, 5⟩ ⟨U32_MAX, 1, 2, 0, 1, 1, 0, none⟩ _ _ rfl

/-- C6: the codec check dominates signature verification — any request whose
amount or fee is unpackable is classified `IncorrectTx`, for every snapshot
and any combination of absent or invalid signatures. -/
theorem C6_codec_precedes_signatures (snap : NetworkSnapshot) (r : TransferRequest)
    (app_sig : Option TxSignature) (eth_sig : Option PackedEthSignature)
    (h : is_token_amount_packable r.amount = false ∨
      is_fee_amount_packable r.fee = false) :
    validate snap r app_sig eth_sig = .rejected .IncorrectTx := by
  have hc : codec_check r = false := by
    rcases h with h | h <;> simp [codec_check, h]
  simp [validate, hc]

/-- C6 witness: a request with unpackable amount and no signatures at all is
classified `IncorrectTx`, not a signature error. -/
theorem C6_witness :
    validate ⟨1, 5⟩ ⟨0, 1, 2, 0, 10 ^ 18 + 1, 1, 0, none⟩ none none
      = .rejected .IncorrectTx :=
  C6_codec_precedes_signatures ⟨1, 5⟩ ⟨0, 1, 2, 0, 10 ^ 18 + 1, 1, 0, none⟩ none none
    (Or.inl (by decide))

/-- C7: validation is deterministic and idempotent — the verdict is the same
for any two submissions with identical field values and equal snapshots,
independent of submission order index and wall-clock time, and validating the
same immutable request twice yields the same classification both times. -/
theorem C7_deterministic_idempotent (o1 t1 o2 t2 : Nat)
    (snap snap' : NetworkSnapshot) (r r' : TransferRequest)
    (app_sig : Option TxSignature) (eth_sig : Option PackedEthSignature)
    (hm : snap.min_fee = snap'.min_fee)
    (ha : snap.account_count = snap'.account_count)
    (h1 : r.account_id = r'.account_id) (h2 : r.fromAddr = r'.fromAddr)
    (h3 : r.toAddr = r'.toAddr) (h4 : r.token = r'.token)
    (h5 : r.amount = r'.amount) (h6 : r.fee = r'.fee)
    (h7 : r.nonce = r'.nonce) (h8 : r.time_bound = r'.time_bound) :
    validate_submission o1 t1 snap r app_sig eth_sig
      = validate_submission o2 t2 snap' r' app_sig eth_sig ∧
    (validate_twice snap r app_sig eth_sig).1
      = (validate_twice snap r app_sig eth_sig).2 := by
  have hs : snap = snap' := by cases snap; cases snap'; simp_all
  have hr : r = r' := by cases r; cases r'; simp_all
  subst hs
  subst hr
  exact ⟨rfl, rfl⟩

/-- C7 witness: the same concrete request validated at two different
submission indices and wall-clock times, and twice in a row, yields the same
classification. -/
theorem C7_witness :
    validate_submission 0 10 ⟨1, 5⟩ ⟨0, 1, 2, 0, 1, 1, 0, none⟩ none none
      = validate_submission 7 99 ⟨1, 5⟩ ⟨0, 1, 2, 0, 1, 1, 0, none⟩ none none ∧
    (validate_twice ⟨1, 5⟩ ⟨0, 1, 2, 0, 1, 1, 0, none⟩ none none).1
      = (validate_twice ⟨1, 5⟩ ⟨0, 1, 2, 0, 1, 1, 0, none⟩ none none).2 :=
  C7_deterministic_idempotent 0 10 7 99 ⟨1, 5⟩ ⟨1, 5⟩
    ⟨0, 1, 2, 0, 1, 1, 0, none⟩ ⟨0, 1, 2, 0, 1, 1, 0, none⟩ none none
    rfl rfl rfl rfl rfl rfl rfl rfl rfl rfl

/-- C8: in every expected-rejection test of `SubmitTxTester`, a success reply
panics; `check_rpc_code` returns without panicking exactly when the failure's
code equals the expected code; hence each test body runs to `Ok(())` exactly
when the reply is a `Failure` carrying exactly the expected code. -/
theorem C8_tests_ok_iff_expected_code (f : RpcFailure) (e : RpcErrorCodes)
    (v : Nat) (reply : RpcOutput) :
    (check_rpc_code f e = .ok ↔ f.code = e.toCode) ∧
    no_eth_signature (.Success v) = .panicked ∧
    incorrect_eth_signature (.Success v) = .panicked ∧
    low_fee (.Success v) = .panicked ∧
    incorrect_account_id (.Success v) = .panicked ∧
    unpackable_token_amount (.Success v) = .panicked ∧
    unpackable_fee_amount (.Success v) = .panicked ∧
    (no_eth_signature reply = .ok ↔
      ∃ g, reply = .Failure g ∧ g.code = RpcErrorCodes.MissingEthSignature.toCode) ∧
    (incorrect_eth_signature reply = .ok ↔
      ∃ g, reply = .Failure g ∧ g.code = RpcErrorCodes.IncorrectEthSignature.toCode) ∧
    (low_fee reply = .ok ↔
      ∃ g, reply = .Failure g ∧ g.code = RpcErrorCodes.FeeTooLow.toCode) ∧
    (incorrect_account_id reply = .ok ↔
      ∃ g, reply = .Failure g ∧ g.code = RpcErrorCodes.IncorrectTx.toCode) ∧
    (unpackable_token_amount reply = .ok ↔
      ∃ g, reply = .Failure g ∧ g.code = RpcErrorCodes.IncorrectTx.toCode) ∧
    (unpackable_fee_amount reply = .ok ↔
      ∃ g, reply = .Failure g ∧ g.code = RpcErrorCodes.IncorrectTx.toCode) := by
  have hc : ∀ (g : RpcFailure) (c : RpcErrorCodes),
      check_rpc_code g c = .ok ↔ g.code = c.toCode := by
    intro g c
    by_cases h : g.code = c.toCode <;> simp [check_rpc_code, h]
  refine ⟨hc f e, rfl, rfl, rfl, rfl, rfl, rfl, ?_, ?_, ?_, ?_, ?_, ?_⟩ <;>
    cases reply <;>
      simp [no_eth_signature, incorrect_eth_signature, low_fee,
        incorrect_account_id, unpackable_token_amount, unpackable_fee_amount, hc]

/-- C8 witness: a failure reply carrying exactly the `MissingEthSignature`
code makes `check_rpc_code` return, and a success reply makes the
`no_eth_signature` test panic. -/
theorem C8_witness :
    check_rpc_code ⟨200⟩ .MissingEthSignature = .ok ∧
    no_eth_signature (.Success 0) = .panicked :=
  ⟨(C8_tests_ok_iff_expected_code ⟨200⟩ .MissingEthSignature 0
      (.Failure ⟨200⟩)).1.mpr rfl,
   (C8_tests_ok_iff_expected_code ⟨200⟩ .MissingEthSignature 0
      (.Failure ⟨200⟩)).2.1⟩

/-- C9: whenever the account id is set, `sign_transfer` returns a `Transfer`
transaction with token id 0 whose signature field is the MuSig signature over
the transaction's canonical bytes, paired with a present Ethereum signature
over the transaction's Ethereum sign message. -/
theorem C9_sign_transfer_shape (acc : ZksyncAccount) (toAddr amount fee aid : Nat)
    (h : acc.account_id = some aid) :
    ∃ t : Transfer, ∃ es : PackedEthSignature,
      sign_transfer acc toAddr amount fee = some (FranklinTx.Transfer t, some es) ∧
      t.token = 0 ∧
      t.signature = TxSignature.sign_musig acc.private_key t.get_bytes ∧
      es = PackedEthSignature.sign acc.eth_private_key
        (t.get_ethereum_sign_message "ETH") := by
  unfold sign_transfer
  rw [h]
  exact ⟨_, _, rfl, rfl, rfl, rfl⟩

/-- C9 witness: a concrete account with account id set yields a token-0
transfer, a MuSig application signature over its bytes and a present Ethereum
signature. -/
theorem C9_witness :
    ∃ t : Transfer, ∃ es : PackedEthSignature,
      sign_transfer ⟨7, 3, 4, some 2, 5⟩ 9 1 1 = some (FranklinTx.Transfer t, some es) ∧
      t.token = 0 ∧
      t.signature = TxSignature.sign_musig 3 t.get_bytes ∧
      es = PackedEthSignature.sign 4 (t.get_ethereum_sign_message "ETH") :=
  C9_sign_transfer_shape ⟨7, 3, 4, some 2, 5⟩ 9 1 1 2 rfl

/-- C10: `SubmitTxTester::run` executes exactly the six test cases in their
fixed order and returns `Ok(())`, for every possible set of server replies. -/
theorem C10_run_order (replies : String → RpcOutput) :
    (SubmitTxTester.run replies).1 =
      [("No ethereum signature", no_eth_signature (replies "No ethereum signature")),
       ("Incorrect ethereum signature",
         incorrect_eth_signature (replies "Incorrect ethereum signature")),
       ("Too low fee", low_fee (replies "Too low fee")),
       ("Incorrect account ID", incorrect_account_id (replies "Incorrect account ID")),
       ("Unpackable token amount",
         unpackable_token_amount (replies "Unpackable token amount")),
       ("Unpackable fee amount",
         unpackable_fee_amount (replies "Unpackable fee amount"))] ∧
    (SubmitTxTester.run replies).1.map Prod.fst =
      ["No ethereum signature", "Incorrect ethereum signature", "Too low fee",
       "Incorrect account ID", "Unpackable token amount", "Unpackable fee amount"] ∧
    (SubmitTxTester.run replies).2 = Except.ok () :=
  ⟨rfl, rfl, rfl⟩

/-- C10 witness: the run over an all-success reply oracle executes the six
tests in order and returns. -/
theorem C10_witness :
    (SubmitTxTester.run fun _ => .Success 0).1.map Prod.fst =
      ["No ethereum signature", "Incorrect ethereum signature", "Too low fee",
       "Incorrect account ID", "Unpackable token amount", "Unpackable fee amount"] ∧
    (SubmitTxTester.run fun _ => .Success 0).2 = Except.ok () :=
  ⟨(C10_run_order fun _ => .Success 0).2.1, (C10_run_order fun _ => .Success 0).2.2⟩
